import Mathlib

/-!
Verification of the Niti-Satya backend core against its specification.

The Python sources under `backend/` are shallowly embedded: pure string
manipulation (chunker, sanitizers) is translated function-by-function;
external effects (HTTP calls to LLM providers, the translator, the document
store, the embedding model) are modelled as explicit outcome parameters of
type `Except PyErr _`, mirroring the fact that the Python code either
receives a value from the call or an exception propagates from it.
Python runtime errors (AttributeError, TypeError, ValueError) raised by the
embedded code itself are modelled by returning `Except.error`.
-/

/- ========================================================================
   Python string primitives
   ======================================================================== -/

/-- Python's `\s` / `str.strip()` whitespace class (ASCII part, which is all
the embedded code paths produce after cleaning). -/
def isPyWs (c : Char) : Bool :=
  c == ' ' || c == '\t' || c == '\n' || c == '\r' || c == '\x0b' || c == '\x0c'

/-- `str.strip()` on a character list: drop whitespace from both ends. -/
def pyStripList (l : List Char) : List Char :=
  ((((l.dropWhile isPyWs).reverse).dropWhile isPyWs)).reverse

/-- Python `str.strip()`. -/
def pyStrip (s : String) : String :=
  ⟨pyStripList s.data⟩

/-- Python slice `s[a:b]` for `0 ≤ a ≤ b` (both indices clamped to the
length, exactly as Python clamps them). -/
def pySliceList (l : List Char) (a b : Nat) : List Char :=
  (l.take b).drop a

/-- Python slice `s[a:b]` on strings. -/
def strSlice (s : String) (a b : Nat) : String :=
  ⟨pySliceList s.data a b⟩

/-- Python slice `s[:n]` on strings. -/
def strTake (s : String) (n : Nat) : String :=
  ⟨s.data.take n⟩

/- ========================================================================
   DocumentChunker (backend/services/chunker.py)
   ======================================================================== -/

/-- Characters removed by `_clean_text`'s control-character regex
`[\x00-\x08\x0b\x0c\x0e-\x1f\x7f-\x9f]`. -/
def isCtrlChar (c : Char) : Bool :=
  c.toNat ≤ 0x08 || c.toNat == 0x0b || c.toNat == 0x0c ||
  (0x0e ≤ c.toNat && c.toNat ≤ 0x1f) || (0x7f ≤ c.toNat && c.toNat ≤ 0x9f)

/-- `re.sub(r'\s+', ' ', text)`: collapse each maximal whitespace run to a
single space.  The flag records whether the scanner is inside a run whose
replacement space has already been emitted. -/
def collapseWsGo : Bool → List Char → List Char
  | _, [] => []
  | inRun, c :: rest =>
    if isPyWs c then
      if inRun then collapseWsGo true rest else ' ' :: collapseWsGo true rest
    else c :: collapseWsGo false rest

/-- `re.sub(r'\s+', ' ', text)`. -/
def collapseWs (l : List Char) : List Char :=
  collapseWsGo false l

/-- Python `str.replace(pat, rep)` (non-overlapping, left to right), with
explicit fuel; each step consumes at least one input character, so
`l.length` fuel is exact.  The empty pattern does not occur in the embedded
sources. -/
def pyReplaceFuel (pat rep : List Char) : Nat → List Char → List Char
  | 0, l => l
  | _ + 1, [] => []
  | fuel + 1, c :: r =>
    if pat.isPrefixOf (c :: r) && !pat.isEmpty then
      rep ++ pyReplaceFuel pat rep fuel ((c :: r).drop pat.length)
    else
      c :: pyReplaceFuel pat rep fuel r

/-- Python `str.replace`. -/
def pyReplace (s pat rep : String) : String :=
  ⟨pyReplaceFuel pat.data rep.data s.data.length s.data⟩

/-- `DocumentChunker._clean_text`.  Note on the quote-normalization lines of
the source: line 126 performs `replace('"', '"')` twice (replacing a plain
double quote by itself, an identity operation), and line 127 — through
Python's triple-quote tokenization of the mangled literal — performs a
single `replace` whose pattern is the 15-character text between the two
`'''` tokens and whose replacement is `'`.  Both are embedded as written. -/
def cleanText (s : String) : String :=
  let s1 : String := ⟨collapseWs s.data⟩
  let s2 : String := ⟨s1.data.filter (fun c => !isCtrlChar c)⟩
  let s3 := pyReplace (pyReplace s2 "\"" "\"") "\"" "\""
  let s4 := pyReplace s3 ", \"'\").replace(" "'"
  pyStrip s4

/-- Sentence-terminator class of the regex `[.!?]\s+`. -/
def isTermChar (c : Char) : Bool :=
  c == '.' || c == '!' || c == '?'

/-- Length of the maximal leading whitespace run (the greedy `\s+`). -/
def wsRunLen : List Char → Nat
  | [] => 0
  | c :: r => if isPyWs c then wsRunLen r + 1 else 0

/-- Absolute end offsets of the non-overlapping matches of `[.!?]\s+` found
by `re.finditer`, scanning the text left to right; `off` is the offset of
the head of `l` in the scanned text. -/
def termMatchEndsFuel : Nat → List Char → Nat → List Nat
  | 0, _, _ => []
  | _ + 1, [], _ => []
  | fuel + 1, c :: rest, off =>
    if isTermChar c && 0 < wsRunLen rest then
      let k := wsRunLen rest
      (off + 1 + k) :: termMatchEndsFuel fuel (rest.drop k) (off + 1 + k)
    else
      termMatchEndsFuel fuel rest (off + 1)

/-- `[.!?]\s+` match ends; each scanning step consumes at least one
character, so `l.length` fuel is exact. -/
def termMatchEnds (l : List Char) (off : Nat) : List Nat :=
  termMatchEndsFuel l.length l off

/-- Absolute end offsets of the non-overlapping matches of `\n\n`. -/
def nlMatchEnds : List Char → Nat → List Nat
  | [], _ => []
  | [_], _ => []
  | c1 :: c2 :: rest, off =>
    if c1 == '\n' && c2 == '\n' then
      (off + 2) :: nlMatchEnds rest (off + 2)
    else
      nlMatchEnds (c2 :: rest) (off + 1)

/-- Distance `abs(x - position)` on naturals. -/
def natDist (x y : Nat) : Nat :=
  max x y - min x y

/-- `DocumentChunker._find_sentence_boundary(text, position, window)`.
Python's `min(..., key=...)` returns the first element attaining the
minimum, embedded here as a left fold keeping the earlier element on
ties. -/
def findSentenceBoundary (text : List Char) (position window : Nat) : Nat :=
  let searchStart := position - window
  let searchText := pySliceList text searchStart (position + window)
  let endings := (termMatchEnds searchText 0).map (fun e => searchStart + e)
  let endings :=
    if endings.isEmpty then (nlMatchEnds searchText 0).map (fun e => searchStart + e)
    else endings
  match endings with
  | [] => position
  | e :: es =>
    let best := es.foldl (fun b x => if natDist x position < natDist b position then x else b) e
    if natDist best position < window then best else position

/-- A chunk produced by `chunk_text`: `{"text", "page", "start", "end"}`
(the `end` key is named `stop` here because `end` is a Lean keyword). -/
structure Chunk where
  text : String
  page : Nat
  start : Nat
  stop : Nat
deriving Repr, DecidableEq

/-- `DocumentChunker._get_page_number`. -/
def getPageNumber (position : Nat) (pageMap : Option (List Nat)) : Nat :=
  match pageMap with
  | none => 0
  | some pm =>
    if pm = [] then 0
    else
      match pm.findIdx? (fun ps => decide (position < ps)) with
      | some i => i
      | none => pm.length

/-- Chunker configuration (`chunk_size`, `chunk_overlap`,
`respect_sentences`); the constructor defaults are 500 / 50 / True. -/
structure ChunkerCfg where
  chunkSize : Nat
  chunkOverlap : Nat
  respectSentences : Bool

/-- The default `DocumentChunker()` configuration. -/
def defaultCfg : ChunkerCfg :=
  ⟨500, 50, true⟩

/-- The `while start < len(text)` loop of `chunk_text`, with explicit fuel
(the Python loop advances `start` by at least `chunk_size - overlap -
window` per iteration under the shipped configuration, so `len(text) + 1`
iterations always suffice). -/
def chunkLoop (cfg : ChunkerCfg) (text : List Char) (pn : Option (List Nat)) :
    Nat → Nat → List Chunk
  | 0, _ => []
  | fuel + 1, start =>
    if start < text.length then
      let e0 := start + cfg.chunkSize
      if text.length ≤ e0 then
        let ct : String := ⟨text.drop start⟩
        if pyStrip ct = "" then []
        else [⟨pyStrip ct, getPageNumber start pn, start, text.length⟩]
      else
        let e :=
          if cfg.respectSentences then
            let bp := findSentenceBoundary text e0 100
            if start < bp then bp else e0
          else e0
        let ct : String := ⟨pySliceList text start e⟩
        let rest := chunkLoop cfg text pn fuel (e - cfg.chunkOverlap)
        if pyStrip ct = "" then rest
        else ⟨pyStrip ct, getPageNumber start pn, start, e⟩ :: rest
    else []

/-- `DocumentChunker.chunk_text(text, page_numbers)`. -/
def chunkText (cfg : ChunkerCfg) (text : String) (pn : Option (List Nat)) : List Chunk :=
  if text = "" then []
  else
    let cleaned := cleanText text
    chunkLoop cfg cleaned.data pn (cleaned.data.length + 1) 0

/- ========================================================================
   AzureSearchService in-memory store (backend/services/azure_search.py)
   ======================================================================== -/

/-- An entry of `AzureSearchService._memory_store` (the `doc` dict built in
`index_document_chunks`).  Embedding vectors are modelled over `ℚ`; the
floating-point values computed by numpy are external inputs here. -/
structure StoredChunk where
  id : String
  content : String
  title : String
  document_id : String
  page_number : Nat
  chunk_index : Nat
  category : String
  ministry : String
  content_vector : List ℚ
deriving Repr, DecidableEq

/-- `self._memory_store`. -/
abbrev MemoryStore : Type :=
  List StoredChunk

/-- A `{"text": str, "page": int}` input chunk of `index_document_chunks`. -/
structure InputChunk where
  text : String
  page : Nat
deriving Repr, DecidableEq

/-- `index_document_chunks` (in-memory branch).  `hashFn` models the md5
hex digest of `_generate_chunk_id`, `embedFn` models `_generate_embedding`
(the external sentence-transformer model, or the zero vector when it is
unavailable).  Returns the extended store and the count returned to the
caller. -/
def indexDocumentChunks (hashFn : String → String) (embedFn : String → List ℚ)
    (store : MemoryStore) (document_id title : String) (chunks : List InputChunk)
    (category ministry : String) : MemoryStore × Nat :=
  let documents := chunks.enum.map (fun p =>
    { id := hashFn (document_id ++ "_" ++ toString p.1)
      content := p.2.text
      title := title
      document_id := document_id
      page_number := p.2.page
      chunk_index := p.1
      category := category
      ministry := ministry
      content_vector := embedFn p.2.text : StoredChunk })
  (store ++ documents, documents.length)

/-- `delete_document` (in-memory branch): keep the chunks of other
documents, return `before - after`. -/
def deleteDocument (store : MemoryStore) (document_id : String) : MemoryStore × Nat :=
  let before := store.length
  let newStore := store.filter (fun c => c.document_id != document_id)
  (newStore, before - newStore.length)

/-- The result dict built by `_memory_search`, generic over the similarity
score type. -/
structure SearchResult (S : Type) where
  id : String
  text : String
  document_title : String
  document_id : String
  page : Nat
  chunk_index : Nat
  score : S
deriving Repr, DecidableEq

section MemorySearch

variable {S : Type} [LinearOrder S]

/-- The descending comparison used by `scored.sort(key=lambda x: x[1],
reverse=True)`: `a` precedes `b` when `b`'s score is at most `a`'s. -/
def descRel : (StoredChunk × S) → (StoredChunk × S) → Prop :=
  fun a b => b.2 ≤ a.2

instance : DecidableRel (descRel (S := S)) :=
  fun a b => inferInstanceAs (Decidable (b.2 ≤ a.2))

instance : IsTotal (StoredChunk × S) descRel :=
  ⟨fun a b => le_total b.2 a.2⟩

instance : IsTrans (StoredChunk × S) descRel :=
  ⟨fun _ _ _ hab hbc => le_trans hbc hab⟩

/-- Python's `list.sort(key=..., reverse=True)` is a stable descending
sort; `List.insertionSort` with `descRel` computes exactly that (sorted
descending, ties kept in the original order). -/
def sortDesc (l : List (StoredChunk × S)) : List (StoredChunk × S) :=
  List.insertionSort descRel l

/-- The output dict of `_memory_search` for one scored chunk. -/
def toSearchResult (p : StoredChunk × S) : SearchResult S :=
  { id := p.1.id
    text := p.1.content
    document_title := p.1.title
    document_id := p.1.document_id
    page := p.1.page_number
    chunk_index := p.1.chunk_index
    score := p.2 }

/-- The candidate set of `_memory_search`: the whole store, restricted to
one document when a `document_id` filter is given. -/
def searchCandidates (store : MemoryStore) (document_id : Option String) : List StoredChunk :=
  match document_id with
  | some d => store.filter (fun c => c.document_id == d)
  | none => store

/-- `AzureSearchService._memory_search(query, document_id, top_k)`.
`score` abstracts the per-chunk cosine similarity against the embedded
query (numpy float arithmetic, external here); the ranking logic is
embedded exactly: score every candidate, stable-sort descending, take
`top_k`, build result dicts. -/
def memorySearch (score : StoredChunk → S) (store : MemoryStore)
    (document_id : Option String) (top_k : Nat) : List (SearchResult S) :=
  let candidates := searchCandidates store document_id
  if candidates = [] then []
  else
    let scored := candidates.map (fun c => (c, score c))
    ((sortDesc scored).take top_k).map toSearchResult

end MemorySearch

/- ========================================================================
   Claim C9: the cosine similarity of `_memory_search`
   ======================================================================== -/

/-- `np.dot(a, b)` on equal-length vectors. -/
def dotList (a b : List ℚ) : ℚ :=
  (List.zipWith (fun x y => x * y) a b).sum

/-- The similarity expression of `_memory_search`:
`np.dot(q, c) / (np.linalg.norm(q) * np.linalg.norm(c) + 1e-8)`.
`np.linalg.norm v = sqrt (dot v v)`; the square root (computed by numpy in
floating point) is passed in as `sqrtFn`, and the rest of the arithmetic is
exact over `ℚ`.  Fidelity boundary: the exact `+ 1e-8` and the exact
division diverge from the program's IEEE float64 arithmetic wherever
rounding matters — in particular float64 *absorbs* the epsilon for
large-magnitude vectors (`1e20 + 1e-8` rounds to `1e20`, so the program's
self-similarity at `v = [1e10]` is exactly `1.0` while this expression
stays below 1).  Only facts at inputs where the float computation resolves
each operation (such as `v = [1.0]`, where `1.0 + 1e-8` is a double
strictly greater than `1.0`), or facts insensitive to rounding (such as
symmetry, since IEEE multiplication commutes exactly), transfer to the
program. -/
def memCosineSim (sqrtFn : ℚ → ℚ) (a b : List ℚ) : ℚ :=
  dotList a b / (sqrtFn (dotList a a) * sqrtFn (dotList b b) + 1 / 100000000)

/- ========================================================================
   Python JSON-ish values and runtime errors
   ======================================================================== -/

/-- A Python value as produced by `json.loads` (plus `None`/`bool` for
defaults): the untrusted shape of a parsed model response. -/
inductive PyVal where
  | none
  | bool (b : Bool)
  | num (q : ℚ)
  | str (s : String)
  | list (l : List PyVal)
  | dict (entries : List (String × PyVal))
deriving Repr

/-- Python runtime exceptions relevant to the embedded code. -/
inductive PyErr where
  | attributeError (msg : String)
  | typeError (msg : String)
  | valueError (msg : String)
  | otherError (msg : String)
deriving Repr, DecidableEq

/-- Python `str(e)` for the exceptions above (the message). -/
def pyErrStr : PyErr → String
  | .attributeError m => m
  | .typeError m => m
  | .valueError m => m
  | .otherError m => m

/-- Python `dict.get(key, default)` on the entry list of a dict literal
(keys of parsed JSON objects are unique). -/
def dictGet (entries : List (String × PyVal)) (key : String) (default : PyVal) : PyVal :=
  match entries.find? (fun p => p.1 == key) with
  | some p => p.2
  | Option.none => default

/-- Python `v.get(key, default)`: attribute lookup fails with
`AttributeError` unless `v` is a dict. -/
def pyGet (v : PyVal) (key : String) (default : PyVal) : Except PyErr PyVal :=
  match v with
  | .dict entries => .ok (dictGet entries key default)
  | _ => .error (.attributeError "object has no attribute get")

/-- Python `v.lower()`: `AttributeError` unless `v` is a string. -/
def pyLower (v : PyVal) : Except PyErr String :=
  match v with
  | .str s => .ok ⟨s.data.map Char.toLower⟩
  | _ => .error (.attributeError "object has no attribute lower")

/-- Python `v[:n]`: strings and lists slice; every other value raises
`TypeError` (`not subscriptable` for numbers/None/booleans, `unhashable
slice` for dicts). -/
def pySliceVal (v : PyVal) (n : Nat) : Except PyErr PyVal :=
  match v with
  | .str s => .ok (.str (strTake s n))
  | .list l => .ok (.list (l.take n))
  | _ => .error (.typeError "object is not subscriptable")

/-- Iterating a sliced value in a `for` loop: a list yields its items, a
string yields its characters as one-character strings. Only called on
values produced by `pySliceVal`. -/
def pyIterItems (v : PyVal) : List PyVal :=
  match v with
  | .list l => l
  | .str s => s.data.map (fun c => PyVal.str ⟨[c]⟩)
  | .dict entries => entries.map (fun p => PyVal.str p.1)
  | _ => []

/- ========================================================================
   Settings (backend/config.py)
   ======================================================================== -/

/-- The fields of `Settings` the embedded services consult.  `Optional`
fields are `Option String` (default `None`), plain fields default to the
empty string. -/
structure Settings where
  gemini_api_key : String
  azure_openai_endpoint : Option String
  azure_openai_key : Option String
  azure_translator_key : String
deriving Repr, DecidableEq

/-- Python truthiness of an `Optional[str]`. -/
def optTruthy : Option String → Bool
  | Option.none => false
  | some s => s != ""

/-- `Settings.get_available_llm`: prefer Azure OpenAI, then Gemini,
else `"none"`. -/
def getAvailableLLM (s : Settings) : String :=
  if optTruthy s.azure_openai_endpoint && optTruthy s.azure_openai_key then "azure_openai"
  else if s.gemini_api_key != "" then "gemini"
  else "none"

/-- The two provider clients. -/
inductive LLMClientKind where
  | azureOpenai
  | gemini
deriving Repr, DecidableEq

/-- `fact_checker.get_llm_client()`: select the client for the available
provider or raise `ValueError`.  (In the `"gemini"` branch the
`GeminiClient` constructor succeeds because the key is nonempty.) -/
def getLLMClient (s : Settings) : Except PyErr LLMClientKind :=
  if getAvailableLLM s = "azure_openai" then .ok .azureOpenai
  else if getAvailableLLM s = "gemini" then .ok .gemini
  else .error (.valueError "No LLM provider configured")

/-- `gemini_client.get_gemini_client()`: the `GeminiClient` constructor
raises `ValueError` when no Gemini key is configured. -/
def getGeminiClientOutcome (s : Settings) : Except PyErr Unit :=
  if s.gemini_api_key = "" then .error (.valueError "GEMINI_API_KEY not configured")
  else .ok ()

/- ========================================================================
   Evidence items passed to the provider fact-check capability
   ======================================================================== -/

/-- An element of the `all_evidence` list built by
`FactCheckerService._get_all_document_evidence`
(`{"document_id", "document_title", "text"}`). -/
structure EvidenceItem where
  document_id : String
  document_title : String
  text : String
deriving Repr, DecidableEq

/- ========================================================================
   AzureOpenAIClient (backend/services/azure_openai.py)
   ======================================================================== -/

/-- The observable state of `AzureOpenAIClient` after `__init__`:
`configured` is true exactly when the `openai` package imported, both
Azure OpenAI settings are truthy, and client construction succeeded
(`openaiAvailable` and `clientCreateOk` model the external conditions). -/
def azureClientConfigured (openaiAvailable clientCreateOk : Bool) (s : Settings) : Bool :=
  openaiAvailable && (optTruthy s.azure_openai_endpoint && optTruthy s.azure_openai_key)
    && clientCreateOk

/-- `AzureOpenAIClient._generate`: raise `ValueError` when unconfigured,
otherwise wrap any transport failure of the chat-completion call
(`genOutcome`, the external HTTP call) in a `ValueError`. -/
def azureGenerate (configured : Bool) (genOutcome : String → Except PyErr String)
    (prompt : String) : Except PyErr String :=
  if !configured then .error (.valueError "Azure OpenAI not configured")
  else
    match genOutcome prompt with
    | .ok t => .ok t
    | .error e => .error (.valueError ("Azure OpenAI generation failed: " ++ pyErrStr e))

/-- The evidence block of the Azure fact-check prompt:
`"From '{title}':\n{text[:500]}"` joined by blank lines over the first five
chunks. -/
def azureEvidenceText (chunks : List EvidenceItem) : String :=
  String.intercalate "\n\n" ((chunks.take 5).map (fun ch =>
    "From '" ++ ch.document_title ++ "':\n" ++ strTake ch.text 500))

/-- The Azure fact-check prompt (the f-string of
`AzureOpenAIClient.fact_check`; `\x7b`/`\x7d` denote literal braces). -/
def azureFactCheckPrompt (claim : String) (chunks : List EvidenceItem) : String :=
  "Fact-check this claim against the official government documents provided.\n\n" ++
  "Claim: \"" ++ claim ++ "\"\n\n" ++
  "Evidence from official documents:\n" ++ azureEvidenceText chunks ++ "\n\n" ++
  "Respond in JSON format:\n\x7b\n" ++
  "    \"verdict\": \"true\" | \"false\" | \"partially_true\" | \"unverifiable\",\n" ++
  "    \"confidence\": 0.0-1.0,\n" ++
  "    \"explanation\": \"detailed explanation\",\n" ++
  "    \"evidence\": [\n" ++
  "        \x7b\"supports_claim\": true/false, \"quote\": \"relevant quote\"\x7d\n" ++
  "    ]\n\x7d\n\n" ++
  "Be very careful: only mark as \"true\" if clearly supported, \"false\" if contradicted.\n" ++
  "Mark \"partially_true\" if some aspects are correct but context is missing.\n" ++
  "Mark \"unverifiable\" if documents don't contain relevant information."

/-- The default dict Azure's `fact_check` builds when `json.loads` fails on
the raw model output. -/
def azureParseFailureDefault (raw : String) : PyVal :=
  .dict [("verdict", .str "unverifiable"),
         ("confidence", .num (3 / 10)),
         ("explanation", .str (strTake raw 500)),
         ("evidence", .list [])]

/-- The default dict Azure's `fact_check` builds when both providers
failed (`e` is the Azure-side exception). -/
def azureBothFailedDefault (e : PyErr) : PyVal :=
  .dict [("verdict", .str "unverifiable"),
         ("confidence", .num 0),
         ("explanation", .str ("Both Azure OpenAI and Gemini failed. Error: " ++ pyErrStr e)),
         ("evidence", .list [])]

/- ========================================================================
   GeminiClient (backend/services/gemini_client.py)
   ======================================================================== -/

/-- The evidence block of the Gemini fact-check prompt:
`"\n[Source {i}: {title}]\n{text}\n"` accumulated over all chunks with
1-based enumeration. -/
def geminiEvidenceText (chunks : List EvidenceItem) : String :=
  String.join (chunks.enum.map (fun p =>
    "\n[Source " ++ toString (p.1 + 1) ++ ": " ++ p.2.document_title ++ "]\n" ++
    p.2.text ++ "\n"))

/-- The Gemini fact-check prompt (`GeminiClient.fact_check`;
`\x7b`/`\x7d` denote literal braces). -/
def geminiFactCheckPrompt (claim : String) (chunks : List EvidenceItem) : String :=
  "You are a neutral fact-checker. Verify this claim against official government documents.\n\n" ++
  "Claim to verify: \"" ++ claim ++ "\"\n\n" ++
  "Official document excerpts:\n" ++ geminiEvidenceText chunks ++ "\n\n" ++
  "Analyze the claim and provide a verdict. Response as JSON:\n\x7b\n" ++
  "    \"verdict\": \"true\" | \"false\" | \"partially_true\" | \"unverifiable\",\n" ++
  "    \"confidence\": 0.0 to 1.0,\n" ++
  "    \"explanation\": \"2-3 sentence explanation of your verdict\",\n" ++
  "    \"evidence\": [\n" ++
  "        \x7b\n" ++
  "            \"source\": \"document name\",\n" ++
  "            \"quote\": \"relevant quote\",\n" ++
  "            \"supports_claim\": true/false\n" ++
  "        \x7d\n" ++
  "    ]\n\x7d\n\n" ++
  "Rules:\n" ++
  "- Only use the provided document excerpts as evidence\n" ++
  "- If no relevant evidence exists, verdict should be \"unverifiable\"\n" ++
  "- Be strictly neutral and factual\n" ++
  "- Explain clearly why the claim is true/false\n\n" ++
  "JSON response:"

/-- Index of the last occurrence of `c` in `l`. -/
def lastIdxOf (c : Char) (l : List Char) : Option Nat :=
  match l.reverse.findIdx? (fun x => x == c) with
  | some k => some (l.length - 1 - k)
  | Option.none => Option.none

/-- `re.search(r'\{[\s\S]*\}', response)`: the leftmost match starts at
the first `'\x7b'` that has some `'\x7d'` after it, and the greedy `[\s\S]*`
extends it to the last `'\x7d'` of the whole string. -/
def extractJsonSpan (l : List Char) : Option (List Char) :=
  match l.findIdx? (fun x => x == '{'), lastIdxOf '}' l with
  | some i, some j => if i < j then some (pySliceList l i (j + 1)) else Option.none
  | _, _ => Option.none

/-- The default dict Gemini's `fact_check` returns when no JSON object can
be extracted and parsed from the response. -/
def geminiFactCheckDefault : PyVal :=
  .dict [("verdict", .str "unverifiable"),
         ("confidence", .num 0),
         ("explanation", .str "Unable to verify this claim with available documents."),
         ("evidence", .list [])]

/-- `GeminiClient.fact_check`.  `genOutcome` is the external
`model.generate_content` call (`_generate` re-raises its exceptions
unchanged), `parseJson` is `json.loads` on the extracted span (`none`
models `json.JSONDecodeError`, the only exception the source catches
there). -/
def geminiFactCheck (genOutcome : String → Except PyErr String)
    (parseJson : String → Option PyVal) (claim : String) (chunks : List EvidenceItem) :
    Except PyErr PyVal := do
  let response ← genOutcome (geminiFactCheckPrompt claim chunks)
  match extractJsonSpan response.data with
  | some span =>
    match parseJson ⟨span⟩ with
    | some v => .ok v
    | Option.none => .ok geminiFactCheckDefault
  | Option.none => .ok geminiFactCheckDefault

/-- `AzureOpenAIClient.fact_check`: try the Azure chat completion and
`json.loads` its output (falling back to the 0.3-confidence default on a
parse failure); on an Azure-side exception fall back to constructing a
Gemini client and calling its `fact_check`, and if that also raises return
the zero-confidence "both failed" default. -/
def azureFactCheck (configured : Bool) (azureGen : String → Except PyErr String)
    (parseJson : String → Option PyVal) (geminiInit : Except PyErr Unit)
    (geminiGen : String → Except PyErr String) (claim : String)
    (chunks : List EvidenceItem) : Except PyErr PyVal :=
  let prompt := azureFactCheckPrompt claim chunks
  match azureGenerate configured azureGen prompt with
  | .ok result =>
    match parseJson result with
    | some v => .ok v
    | Option.none => .ok (azureParseFailureDefault result)
  | .error e =>
    match geminiInit with
    | .ok _ =>
      match geminiFactCheck geminiGen parseJson claim chunks with
      | .ok v => .ok v
      | .error _ => .ok (azureBothFailedDefault e)
    | .error _ => .ok (azureBothFailedDefault e)

/- ========================================================================
   Input sanitizers (fact_checker._sanitize_input, rag_engine._sanitize_input)
   ======================================================================== -/

/-- Case-insensitive prefix test (the `re.IGNORECASE` flag). -/
def startsWithCI : List Char → List Char → Bool
  | [], _ => true
  | _ :: _, [] => false
  | p :: ps, c :: cs => (c.toLower == p.toLower) && startsWithCI ps cs

/-- Index of the first case-insensitive occurrence of `pat`. -/
def findCIFrom (pat : List Char) : List Char → Option Nat
  | [] => if pat.isEmpty then some 0 else Option.none
  | c :: cs =>
    if startsWithCI pat (c :: cs) then some 0
    else (findCIFrom pat cs).map (fun n => n + 1)

/-- `re.sub(r'<script[^>]*>.*?</script>', '', text, IGNORECASE | DOTALL)`:
at each position try to match `<script`, then the greedy `[^>]*>` (forced to
the first following `'>'`), then the lazy `.*?</script>` (the first
following close tag); remove the match and continue after it, otherwise
advance one character.  Fuel `l.length` is exact: every step consumes at
least one character. -/
def removeScriptTagsFuel : Nat → List Char → List Char
  | 0, l => l
  | _ + 1, [] => []
  | fuel + 1, c :: cs =>
    if startsWithCI "<script".data (c :: cs) then
      let rest := (c :: cs).drop 7
      match rest.findIdx? (fun x => x == '>') with
      | some j =>
        let afterGt := rest.drop (j + 1)
        match findCIFrom "</script>".data afterGt with
        | some k => removeScriptTagsFuel fuel (afterGt.drop (k + 9))
        | Option.none => c :: removeScriptTagsFuel fuel cs
      | Option.none => c :: removeScriptTagsFuel fuel cs
    else c :: removeScriptTagsFuel fuel cs

/-- `re.sub(r'<[^>]+>', '', text)`: drop `'<'` up to the next `'>'` when at
least one character lies between, else advance. -/
def removeHtmlTagsFuel : Nat → List Char → List Char
  | 0, l => l
  | _ + 1, [] => []
  | fuel + 1, c :: cs =>
    if c == '<' then
      match cs.findIdx? (fun x => x == '>') with
      | some j =>
        if 0 < j then removeHtmlTagsFuel fuel (cs.drop (j + 1))
        else c :: removeHtmlTagsFuel fuel cs
      | Option.none => c :: removeHtmlTagsFuel fuel cs
    else c :: removeHtmlTagsFuel fuel cs

/-- `FactCheckerService._sanitize_input`: strip script tags, strip HTML
tags, remove null bytes, truncate to 2000 characters, strip. -/
def sanitizeInput (text : String) : String :=
  let t1 : String := ⟨removeScriptTagsFuel text.data.length text.data⟩
  let t2 : String := ⟨removeHtmlTagsFuel t1.data.length t1.data⟩
  let t3 : String := ⟨t2.data.filter (fun c => c != '\x00')⟩
  pyStrip (strTake t3 2000)

/-- `RAGEngine._sanitize_input`: strip script tags, strip HTML tags,
truncate to 1000 characters (no null-byte removal, no strip). -/
def ragSanitizeInput (text : String) : String :=
  let t1 : String := ⟨removeScriptTagsFuel text.data.length text.data⟩
  let t2 : String := ⟨removeHtmlTagsFuel t1.data.length t1.data⟩
  strTake t2 1000

/- ========================================================================
   FactCheckerService (backend/services/fact_checker.py)
   ======================================================================== -/

/-- `api.schemas.FactCheckVerdict`. -/
inductive FactCheckVerdict where
  | TRUE
  | FALSE
  | PARTIALLY_TRUE
  | UNVERIFIABLE
deriving Repr, DecidableEq

/-- A document record of the document store (the fields
`_get_all_document_evidence` and `_get_document_context` read; the store's
`create` always writes them, with `summary or ""` and `key_points or []`).
-/
structure StoreDoc where
  id : String
  title : String
  summary : String
  key_points : List String
deriving Repr, DecidableEq

/-- An entry of the hardcoded `DOCUMENT_CONTEXT` table of
`rag_engine.py`. -/
structure CtxDoc where
  title : String
  summary : String
  key_points : List String
deriving Repr, DecidableEq

/-- The hardcoded `DOCUMENT_CONTEXT` table of `rag_engine.py` (dict
iteration order is insertion order). -/
def DOCUMENT_CONTEXT : List (String × CtxDoc) := [
  ("income-tax-2025",
   ⟨"The Income-tax Bill, 2025",
    "The Income-tax Bill, 2025 is a major update to how India collects taxes from citizens and businesses. The old tax law from 1961 was 63 years old and had become very confusing with 819 sections full of legal terms. This new bill rewrites everything in simple, easy-to-understand language with only 536 sections. The good news? Your tax rates remain the same - you will not pay more or less tax. The government simply made the rules easier to read so that ordinary people can understand their tax obligations without needing a lawyer or CA to explain everything.",
    ["Replaces the 63-year-old Income-tax Act, 1961",
     "Number of sections reduced from 819 to 536",
     "No change in current tax rates",
     "Simplified language for better understanding",
     "Tables and formulas replace complex explanations",
     "New tax regime as default option",
     "Streamlined exemption claims process"]⟩),
  ("income-tax-select-committee",
   ⟨"Select Committee Report - Income Tax Bill 2025",
    "After the Income Tax Bill 2025 was introduced, a Select Committee of senior MPs reviewed it for several months. They invited common people, business owners, tax experts, and CAs to share their concerns. This 1200+ page report contains all their suggestions, complaints, and the committee's recommendations for making the bill even better.",
    ["Committee recommendations for amendments",
     "Stakeholder observations addressed",
     "Compliance simplification suggestions",
     "Implementation timeline recommendations"]⟩),
  ("shiksha-bill-2025",
   ⟨"The Viksit Bharat Shiksha Adhishthan Bill, 2025",
    "This Bill creates a single body called 'Viksit Bharat Shiksha Adhishthan' to manage all higher education in India. Currently, if you want to start a college, you need approvals from UGC (for universities), AICTE (for engineering/technical colleges), and NCTE (for teacher training). This is confusing and time-consuming. Under this new law, there will be just ONE organization handling everything - making it easier to open quality institutions and ensuring all colleges follow the same standards.",
    ["Creates single umbrella body for higher education",
     "Merges functions of UGC, AICTE, and NCTE",
     "Aims to simplify higher education governance",
     "Promotes research and innovation",
     "Implements National Education Policy 2020",
     "Accreditation Council for quality assurance",
     "Standards Council for curriculum"]⟩),
  ("vb-gramg-bill-2025",
   ⟨"Viksit Bharat Rozgar Guarantee (Gramin) Bill, 2025",
    "This Bill strengthens job guarantee for rural families. Under MGNREGA, every rural household can get 100 days of paid work. This new bill adds skill training - so you can learn useful things like computer skills, tailoring, or modern farming while earning money. No more just manual labor! Payments will be faster through digital transfers.",
    ["100 days guaranteed employment",
     "Skill development integration",
     "Livelihood support for rural areas",
     "Digital payment mechanism",
     "Links employment with local development",
     "Work certification system"]⟩),
  ("securities-code-2025",
   ⟨"The Securities Markets Code, 2025",
    "This Bill simplifies the rules for the stock market and investments in India. Currently, there are 4 different laws governing the stock market (SEBI Act, Securities Contracts Act, etc.) which creates confusion for investors and companies. This new code combines everything into one simple rulebook. If you invest in stocks, mutual funds, or any securities, this law protects your money better.",
    ["Consolidates 4 major securities laws",
     "Replaces SEBI Act, 1992",
     "Modernizes capital market regulations",
     "Strengthens investor protection",
     "Includes provisions for digital assets",
     "Unified securities regulation code"]⟩),
  ("electricity-bill-2025",
   ⟨"Electricity (Amendment) Bill, 2025",
    "This Bill updates India's electricity laws to prepare for the future. It strongly promotes solar power, wind energy, and other renewable sources - meaning cleaner air and sustainable energy for your children. The bill also protects electricity consumers with better complaint processes and modernizes the power grid for smart meters and electric vehicles.",
    ["Renewable energy promotion",
     "Distribution network improvements",
     "Consumer rights enhancement",
     "Smart grid provisions",
     "Subsidy reforms"]⟩),
  ("vikasit-bharat-main",
   ⟨"Viksit Bharat Bill - Main Document",
    "The Viksit Bharat Bill is India's roadmap to become a developed nation by 2047 - exactly 100 years after independence. It covers everything: better roads and railways, world-class hospitals and schools, clean water for all, modern cities, strong farming sector, and jobs for everyone.",
    ["Vision 2047 development goals",
     "Sectoral development priorities",
     "Infrastructure modernization",
     "Human capital development",
     "Technology advancement"]⟩)]

/-- The evidence text built from a store document or a `DOCUMENT_CONTEXT`
entry: `"Summary: {summary}\n\nKey Points: {', '.join(key_points)}"`. -/
def evidenceTextOf (summary : String) (key_points : List String) : String :=
  "Summary: " ++ summary ++ "\n\nKey Points: " ++ String.intercalate ", " key_points

/-- `FactCheckerService._get_all_document_evidence`: collect summaries of
all stored documents (an exception from the store is caught, leaving the
list empty so far); when nothing was collected, fall back to the hardcoded
`DOCUMENT_CONTEXT` table.  `storeOutcome` is the external
`store.get_all(page=1, page_size=100)` call, yielding its `"documents"`
list. -/
def getAllDocumentEvidence (storeOutcome : Except PyErr (List StoreDoc)) :
    List EvidenceItem :=
  let evidence : List EvidenceItem :=
    match storeOutcome with
    | .error _ => []
    | .ok docs => docs.filterMap (fun (d : StoreDoc) =>
        if d.summary != "" then
          some { document_id := d.id, document_title := d.title,
                 text := evidenceTextOf d.summary d.key_points }
        else Option.none)
  if evidence.isEmpty then
    DOCUMENT_CONTEXT.map (fun (p : String × CtxDoc) =>
      { document_id := p.1, document_title := p.2.title,
        text := evidenceTextOf p.2.summary p.2.key_points })
  else evidence

/-- The translated claim used for searching (`check_claim` lines 101-109):
on any exception from detection or translation the original claim is kept
(`except: pass`). -/
def computeSearchClaim (claim language : String) (translatorConfigured : Bool)
    (detectOutcome : Except PyErr (String × ℚ))
    (translateOutcome : Except PyErr String) : String :=
  if language != "en" && translatorConfigured then
    match detectOutcome with
    | .error _ => claim
    | .ok dl =>
      if dl.1 != "en" && dl.2 > 7 / 10 then
        match translateOutcome with
        | .ok t => t
        | .error _ => claim
      else claim
  else claim

/-- An entry of the `evidence` list a fact-check result carries (the dict
built in `check_claim` lines 158-166; values taken from the untrusted model
response stay `PyVal`; the `section` key is named `sectionName` because
`section` is a Lean keyword). -/
structure EvidenceOut where
  document_id : PyVal
  document_title : PyVal
  page : PyVal
  sectionName : String
  quote : PyVal
  supports_claim : PyVal
deriving Repr

/-- The result dict of `FactCheckerService.check_claim`. -/
structure CheckClaimResult where
  claim : String
  verdict : FactCheckVerdict
  confidence : PyVal
  explanation : PyVal
  evidence : List EvidenceOut
  language : String
  llm_provider : String
deriving Repr

/-- The early-return result dicts of `check_claim` (verdict UNVERIFIABLE,
confidence 0.0, no evidence). -/
def mkEarlyResult (claim explanation language provider : String) : CheckClaimResult :=
  { claim := claim, verdict := .UNVERIFIABLE, confidence := .num 0,
    explanation := .str explanation, evidence := [], language := language,
    llm_provider := provider }

/-- The `verdict_map` of `check_claim` with its `.get(..., UNVERIFIABLE)`
default. -/
def verdictMap (s : String) : FactCheckVerdict :=
  if s = "true" then .TRUE
  else if s = "false" then .FALSE
  else if s = "partially_true" then .PARTIALLY_TRUE
  else if s = "unverifiable" then .UNVERIFIABLE
  else .UNVERIFIABLE

/-- One iteration of the evidence loop of `check_claim`: each `.get` raises
`AttributeError` unless `ev` is a dict, and the `[:300]` slice raises
`TypeError` unless the quote is a string or list. -/
def buildEvidenceItem (verdict : FactCheckVerdict) (ev : PyVal) :
    Except PyErr EvidenceOut := do
  let docId ← pyGet ev "document_id" (.str "")
  let innerDefault ← pyGet ev "document_title" (.str "Government Document")
  let title ← pyGet ev "source" innerDefault
  let quoteRaw ← pyGet ev "quote" (.str "")
  let quote ← pySliceVal quoteRaw 300
  let supports ← pyGet ev "supports_claim" (.bool (verdict == .TRUE))
  .ok { document_id := docId, document_title := title, page := .none,
        sectionName := "Document Summary", quote := quote, supports_claim := supports }

/-- The evidence loop of `check_claim` over `llm_evidence[:5]`. -/
def buildEvidence (verdict : FactCheckVerdict) : List PyVal → Except PyErr (List EvidenceOut)
  | [] => .ok []
  | ev :: rest => do
    let item ← buildEvidenceItem verdict ev
    let others ← buildEvidence verdict rest
    .ok (item :: others)

/-- The post-processing of the provider response in `check_claim` (lines
144-185).  This code runs outside any `try` block: the `AttributeError` and
`TypeError` raised on type-confused responses propagate.  Only the
explanation translation is guarded (`except: pass`). -/
def processLLMResult (j : PyVal) (claim language provider : String)
    (translatorConfigured : Bool) (translateExpl : Except PyErr String) :
    Except PyErr CheckClaimResult := do
  let verdictRaw ← pyGet j "verdict" (.str "unverifiable")
  let verdictStr ← pyLower verdictRaw
  let verdict := verdictMap verdictStr
  let llmEvidence ← pyGet j "evidence" (.list [])
  let sliced ← pySliceVal llmEvidence 5
  let evidence ← buildEvidence verdict (pyIterItems sliced)
  let explanation0 ← pyGet j "explanation" (.str "Unable to provide detailed explanation.")
  let explanation :=
    if language != "en" && translatorConfigured then
      match translateExpl with
      | .ok t => PyVal.str t
      | .error _ => explanation0
    else explanation0
  let confidence ← pyGet j "confidence" (.num (1 / 2))
  .ok { claim := claim, verdict := verdict, confidence := confidence,
        explanation := explanation, evidence := evidence, language := language,
        llm_provider := provider }

/-- The external calls `check_claim` makes, each as its outcome. -/
structure CheckClaimEnv where
  translatorConfigured : Bool
  detectOutcome : Except PyErr (String × ℚ)
  translateToEnOutcome : Except PyErr String
  storeOutcome : Except PyErr (List StoreDoc)
  llmOutcome : String → Except PyErr PyVal
  translateExplOutcome : Except PyErr String

/-- `FactCheckerService.check_claim`. -/
def checkClaim (env : CheckClaimEnv) (provider claim language : String) :
    Except PyErr CheckClaimResult :=
  if claim = "" || (pyStrip claim).data.length < 10 then
    .ok (mkEarlyResult claim "Please provide a more detailed claim to verify."
      language provider)
  else
    let claim1 := sanitizeInput claim
    let searchClaim := computeSearchClaim claim1 language env.translatorConfigured
      env.detectOutcome env.translateToEnOutcome
    let allEvidence := getAllDocumentEvidence env.storeOutcome
    if allEvidence.isEmpty then
      .ok (mkEarlyResult claim1
        "No government documents are available to verify this claim." language provider)
    else
      match env.llmOutcome searchClaim with
      | .error e =>
        .ok (mkEarlyResult claim1 ("Error during fact checking: " ++ pyErrStr e)
          language provider)
      | .ok j =>
        processLLMResult j claim1 language provider env.translatorConfigured
          env.translateExplOutcome

/-- Invoking the fact-check capability through the service:
`get_fact_checker()` constructs `FactCheckerService`, whose `__init__`
calls `get_llm_client()`; only then can `check_claim` run. -/
def serviceCheckClaim (s : Settings) (env : CheckClaimEnv) (claim language : String) :
    Except PyErr CheckClaimResult := do
  let _ ← getLLMClient s
  checkClaim env (getAvailableLLM s) claim language

/- ========================================================================
   RAGEngine (backend/services/rag_engine.py)
   ======================================================================== -/

/-- `RAGEngine._get_document_context`: prefer the stored document when it
has a nonempty summary (a store exception is caught), else fall back to the
`DOCUMENT_CONTEXT` table, else `None`.  `storeGet` is the external
`store.get(document_id)` call. -/
def getDocumentContext (storeGet : Except PyErr (Option StoreDoc))
    (document_id : String) : Option CtxDoc :=
  let fallback := (DOCUMENT_CONTEXT.find? (fun p => p.1 == document_id)).map (fun p => p.2)
  match storeGet with
  | .ok (some d) =>
    if d.summary != "" then some ⟨d.title, d.summary, d.key_points⟩ else fallback
  | _ => fallback

/-- The context text `ask` builds from the document record. -/
def buildContextText (ctx : CtxDoc) : String :=
  "Document Title: " ++ ctx.title ++ "\n\n" ++
  "Document Summary:\n" ++ ctx.summary ++ "\n\n" ++
  (if ctx.key_points.isEmpty then ""
   else "Key Points:\n" ++ String.join (ctx.key_points.map (fun kp => "- " ++ kp ++ "\n")))

/-- A citation dict built by `ask`. -/
structure Citation where
  text : String
  page : PyVal
  sectionName : String
  document_id : Option String
  relevance_score : ℚ
deriving Repr

/-- The result dict of `RAGEngine.ask`. -/
structure AskResult where
  answer : PyVal
  citations : List Citation
  confidence : PyVal
  language : String
  llm_provider : String
deriving Repr

/-- `RAGEngine.ask`.  `llmAnswer` is the external
`answer_question(question, context_chunks, title)` call; its result is
consumed by `.get` calls outside any `try`.  The answer translation is
guarded: on an exception the untranslated answer is kept (`except` prints
and continues). -/
def ragAsk (provider : String) (translatorConfigured : Bool)
    (storeGet : Except PyErr (Option StoreDoc))
    (llmAnswer : String → List String → String → Except PyErr PyVal)
    (translateAnswer : Except PyErr String) (question : String)
    (document_id : Option String) (language : String) : Except PyErr AskResult :=
  if question = "" || pyStrip question = "" then
    .ok { answer := .str "Please ask a question.", citations := [],
          confidence := .num 0, language := language, llm_provider := provider }
  else
    let q := ragSanitizeInput question
    let docContext : Option CtxDoc :=
      match document_id with
      | some d => getDocumentContext storeGet d
      | Option.none => Option.none
    match docContext with
    | Option.none =>
      .ok { answer := .str
              "I couldn't find the document you're asking about. Please select a document first.",
            citations := [], confidence := .num 0, language := language,
            llm_provider := provider }
    | some ctx =>
      match llmAnswer q [buildContextText ctx] ctx.title with
      | .error e =>
        .ok { answer := .str
                ("Sorry, I encountered an error while processing your question. Please try again. Error: "
                  ++ pyErrStr e),
              citations := [], confidence := .num 0, language := language,
              llm_provider := provider }
      | .ok result => do
        let citations : List Citation :=
          [{ text := strTake ctx.summary 200 ++ "...", page := .none,
             sectionName := "Document Summary", document_id := document_id,
             relevance_score := 9 / 10 }]
        let answer0 ← pyGet result "answer" (.str "I couldn't generate an answer.")
        let confidence ← pyGet result "confidence" (.num (7 / 10))
        let answer :=
          if language != "en" && translatorConfigured then
            match translateAnswer with
            | .ok t => PyVal.str t
            | .error _ => answer0
          else answer0
        .ok { answer := answer, citations := citations, confidence := confidence,
              language := language, llm_provider := provider }

/-- The result dict of `RAGEngine.summarize_document`. -/
structure SummarizeResult where
  summary : String
  key_points : List String
  language : String
deriving Repr, DecidableEq

/-- `RAGEngine.summarize_document`: generate a summary and key points, then
translate both when a non-English language is requested and the translator
is configured.  None of the calls is inside a `try`: every failure,
translation included, propagates to the caller. -/
def summarizeDocument (genSummary : Except PyErr String)
    (extractKP : Except PyErr (List String)) (translatorConfigured : Bool)
    (translateSummary : Except PyErr String)
    (translateBatch : Except PyErr (List String)) (language : String) :
    Except PyErr SummarizeResult := do
  let summary ← genSummary
  let kp ← extractKP
  if language != "en" && translatorConfigured then do
    let s2 ← translateSummary
    let kp2 ← translateBatch
    .ok { summary := s2, key_points := kp2, language := language }
  else
    .ok { summary := summary, key_points := kp, language := language }

/- ========================================================================
   Well-typedness of provider responses (for claims C1 / C5)
   ======================================================================== -/

/-- A value Python can slice with `[:n]`. -/
def sliceable : PyVal → Bool
  | .str _ => true
  | .list _ => true
  | _ => false

/-- An evidence entry `check_claim`'s loop can process without raising: a
dict whose `quote` (when present) is a string or list. -/
def wellTypedEvidenceItem : PyVal → Bool
  | .dict entries => sliceable (dictGet entries "quote" (.str ""))
  | _ => false

/-- A provider response `check_claim`'s post-processing can consume without
raising: a dict whose `verdict` (when present) is a string and whose
`evidence` (when present) is a list of well-typed entries (or the empty
string, over which the loop simply never runs). -/
def wellTypedResp : PyVal → Bool
  | .dict entries =>
    (match dictGet entries "verdict" (.str "unverifiable") with
     | .str _ => true
     | _ => false) &&
    (match dictGet entries "evidence" (.list []) with
     | .list l => (l.take 5).all wellTypedEvidenceItem
     | .str s => s = ""
     | _ => false)
  | _ => false

/-- The length Python's `[:300]` slice bounds: characters of a string,
items of a list. -/
def quoteLen : PyVal → Nat
  | .str s => s.data.length
  | .list l => l.length
  | _ => 0

/-- The evidence quotes of a fact-check outcome (empty on an exception);
used to state concrete evaluations. -/
def resultQuotes : Except PyErr CheckClaimResult → List PyVal
  | .ok r => r.evidence.map (fun e => e.quote)
  | .error _ => []

/-- A fixed environment for concrete evaluations: translator unconfigured,
one stored document with a summary, and a provider response supplied per
theorem. -/
def mkTestEnv (resp : Except PyErr PyVal) : CheckClaimEnv :=
  { translatorConfigured := false
    detectOutcome := .error (.otherError "not called")
    translateToEnOutcome := .error (.otherError "not called")
    storeOutcome := .ok [⟨"d1", "Doc One", "A summary.", ["kp1"]⟩]
    llmOutcome := fun _ => resp
    translateExplOutcome := .error (.otherError "not called") }

/-- The 301-character quote of the C5 counterexample. -/
def aaa301 : String :=
  ⟨List.replicate 301 'a'⟩

/-- Its 300-character prefix, as stored by the `[:300]` slice. -/
def aaa300 : String :=
  ⟨List.replicate 300 'a'⟩

/-- The concrete result of the C5 witness run. -/
def witnessResult5 : CheckClaimResult :=
  { claim := sanitizeInput "Another witness claim long enough."
    verdict := .TRUE
    confidence := .num (1 / 2)
    explanation := .str "Unable to provide detailed explanation."
    evidence := [{ document_id := .str "", document_title := .str "Government Document",
                   page := .none, sectionName := "Document Summary",
                   quote := .str "short quote", supports_claim := .bool true }]
    language := "en"
    llm_provider := "azure_openai" }

/-- A `Settings` with no provider and no translator configured. -/
def unconfiguredSettings : Settings :=
  { gemini_api_key := "", azure_openai_endpoint := Option.none,
    azure_openai_key := Option.none, azure_translator_key := "" }

/- ========================================================================
   Theorems
   ======================================================================== -/

/- ========================================================================
   Helper lemmas about Python string stripping
   ======================================================================== -/

/-- `dropWhile` is idempotent. -/
theorem dropWhile_dropWhile_eq {α : Type} (p : α → Bool) (l : List α) :
    (l.dropWhile p).dropWhile p = l.dropWhile p := by
  induction l with
  | nil => rfl
  | cons h t ih =>
    by_cases hp : p h
    · simp [List.dropWhile_cons, hp, ih]
    · simp [List.dropWhile_cons, hp]

/-- If `dropWhile` leaves `u ++ v` unchanged it leaves the prefix `u`
unchanged. -/
theorem dropWhile_append_eq_self {α : Type} (p : α → Bool) (u v : List α)
    (h : (u ++ v).dropWhile p = u ++ v) : u.dropWhile p = u := by
  cases u with
  | nil => rfl
  | cons a t =>
    by_cases hp : p a
    · exfalso
      have hlen : ((a :: t ++ v).dropWhile p).length ≤ (t ++ v).length := by
        simp only [List.cons_append, List.dropWhile_cons, hp, if_true]
        exact (List.dropWhile_sublist p).length_le
      rw [h] at hlen
      simp at hlen
    · simp [List.dropWhile_cons, hp]

/-- A stripped list has no leading whitespace. -/
theorem pyStripList_noLeadWs (l : List Char) :
    (pyStripList l).dropWhile isPyWs = pyStripList l := by
  unfold pyStripList
  have hA : (l.dropWhile isPyWs).dropWhile isPyWs = l.dropWhile isPyWs :=
    dropWhile_dropWhile_eq _ _
  have hsplit : l.dropWhile isPyWs =
      (((l.dropWhile isPyWs).reverse.dropWhile isPyWs).reverse) ++
      (((l.dropWhile isPyWs).reverse.takeWhile isPyWs).reverse) := by
    conv_lhs =>
      rw [← List.reverse_reverse (l.dropWhile isPyWs),
        ← List.takeWhile_append_dropWhile (p := isPyWs) (l := (l.dropWhile isPyWs).reverse)]
    rw [List.reverse_append]
  exact dropWhile_append_eq_self _ _ _ (by rw [← hsplit]; exact hA)

/-- `pyStripList` is idempotent. -/
theorem pyStripList_idem (l : List Char) :
    pyStripList (pyStripList l) = pyStripList l := by
  have h1 : (pyStripList l).dropWhile isPyWs = pyStripList l := pyStripList_noLeadWs l
  conv_lhs => rw [pyStripList]
  rw [h1]
  have h2 : (pyStripList l).reverse.dropWhile isPyWs = (pyStripList l).reverse := by
    show ((((l.dropWhile isPyWs).reverse.dropWhile isPyWs)).reverse).reverse.dropWhile isPyWs = _
    simp only [List.reverse_reverse, dropWhile_dropWhile_eq, pyStripList]
  rw [h2, List.reverse_reverse]

/-- `pyStrip` is idempotent. -/
theorem pyStrip_idem (s : String) : pyStrip (pyStrip s) = pyStrip s := by
  simp [pyStrip, pyStripList_idem]

/-- `_clean_text` output is already stripped. -/
theorem pyStrip_cleanText (s : String) : pyStrip (cleanText s) = cleanText s := by
  unfold cleanText
  exact pyStrip_idem _

/-- Every chunk emitted by the chunking loop has stripped, non-blank text:
each append in `chunk_text` stores `chunk_text.strip()` and is guarded by
its truthiness. -/
theorem chunkLoop_chunks_stripped (cfg : ChunkerCfg) (text : List Char)
    (pn : Option (List Nat)) :
    ∀ fuel start, ∀ c ∈ chunkLoop cfg text pn fuel start,
      pyStrip c.text = c.text ∧ c.text ≠ "" := by
  intro fuel
  induction fuel with
  | zero => intro start c hc; simp [chunkLoop] at hc
  | succ n ih =>
    intro start c hc
    rw [chunkLoop] at hc
    by_cases h1 : start < text.length
    · rw [if_pos h1] at hc
      by_cases h2 : text.length ≤ start + cfg.chunkSize
      · rw [if_pos h2] at hc
        by_cases h3 : pyStrip ⟨text.drop start⟩ = ""
        · rw [if_pos h3] at hc
          simp at hc
        · rw [if_neg h3] at hc
          simp at hc
          subst hc
          exact ⟨pyStrip_idem _, h3⟩
      · rw [if_neg h2] at hc
        set e := if cfg.respectSentences then
            let bp := findSentenceBoundary text (start + cfg.chunkSize) 100
            if start < bp then bp else start + cfg.chunkSize
          else start + cfg.chunkSize with he
        by_cases h3 : pyStrip ⟨pySliceList text start e⟩ = ""
        · rw [if_pos h3] at hc
          exact ih _ c hc
        · rw [if_neg h3] at hc
          rcases List.mem_cons.mp hc with hc | hc
          · subst hc
            exact ⟨pyStrip_idem _, h3⟩
          · exact ih _ c hc
    · rw [if_neg h1] at hc
      simp at hc

/-- `s = ""` iff its character list is empty. -/
theorem string_eq_empty_iff (s : String) : s = "" ↔ s.data = [] := by
  constructor
  · intro h; rw [h]
  · intro h; cases s; simp_all

/-- Structure eta for `String`. -/
theorem string_eta (s : String) : (⟨s.data⟩ : String) = s :=
  rfl

/-- Claim C7 (amended): `chunk_text` maps empty input to the empty sequence;
*nonempty* cleaned text shorter than the target chunk size yields exactly
one chunk carrying the whole cleaned text; and whitespace-only chunks (in
particular a whitespace-only trailing chunk) never appear in the output. -/
theorem chunkText_edge_cases (cfg : ChunkerCfg) (text : String) (pn : Option (List Nat)) :
    (chunkText cfg "" pn = []) ∧
    (cleanText text ≠ "" → (cleanText text).data.length < cfg.chunkSize →
      chunkText cfg text pn =
        [⟨cleanText text, getPageNumber 0 pn, 0, (cleanText text).data.length⟩]) ∧
    (∀ c ∈ chunkText cfg text pn, pyStrip c.text = c.text ∧ c.text ≠ "") := by
  refine ⟨rfl, ?_, ?_⟩
  · intro hne hlen
    have htext : text ≠ "" := by
      intro h
      exact hne (by rw [h]; rfl)
    unfold chunkText
    rw [if_neg htext]
    have hpos : 0 < (cleanText text).data.length := by
      rcases Nat.eq_zero_or_pos (cleanText text).data.length with h | h
      · exact absurd ((string_eq_empty_iff _).mpr (List.length_eq_zero.mp h)) hne
      · exact h
    rw [chunkLoop]
    rw [if_pos hpos]
    rw [if_pos (Nat.le_of_lt (by simpa using hlen))]
    simp only [List.drop_zero, string_eta, pyStrip_cleanText]
    rw [if_neg hne]
  · intro c hc
    unfold chunkText at hc
    by_cases htext : text = ""
    · rw [if_pos htext] at hc; simp at hc
    · rw [if_neg htext] at hc
      exact chunkLoop_chunks_stripped cfg (cleanText text).data pn _ 0 c hc

/-- Claim C7, counterexample to the claim as stated: the whitespace-only
input `" "` has cleaned text `""`, which is shorter than the target chunk
size 500, yet `chunk_text` yields zero chunks rather than exactly one chunk
containing the whole cleaned text. -/
theorem chunkText_whitespace_input_empty :
    cleanText " " = "" ∧
    (cleanText " ").data.length < defaultCfg.chunkSize ∧
    chunkText defaultCfg " " none = [] ∧
    (chunkText defaultCfg " " none).length ≠ 1 := by
  refine ⟨rfl, by decide, rfl, by decide⟩

/-- Claim C7, witness: the amended single-chunk case evaluated at the
concrete input `"Hello world."`. -/
theorem chunkText_edge_cases_witness :
    cleanText "Hello world." ≠ "" ∧
    (cleanText "Hello world.").data.length < defaultCfg.chunkSize ∧
    chunkText defaultCfg "Hello world." none =
      [⟨cleanText "Hello world.", getPageNumber 0 none, 0,
        (cleanText "Hello world.").data.length⟩] :=
  ⟨by decide, by decide,
    (chunkText_edge_cases defaultCfg "Hello world." none).2.1 (by decide) (by decide)⟩

/- ========================================================================
   Claims C6 / C8 / C10: properties of the in-memory store
   ======================================================================== -/

/-- Unfolding lemma: the store kept by `delete_document`. -/
theorem deleteDocument_fst (store : MemoryStore) (d : String) :
    (deleteDocument store d).1 = store.filter (fun c => c.document_id != d) :=
  rfl

/-- Unfolding lemma: the count returned by `delete_document`. -/
theorem deleteDocument_snd (store : MemoryStore) (d : String) :
    (deleteDocument store d).2 =
      store.length - (store.filter (fun c => c.document_id != d)).length :=
  rfl

/-- After deleting document `d`, no chunk of `d` survives the filter. -/
theorem filter_eq_after_delete (store : MemoryStore) (d : String) :
    (deleteDocument store d).1.filter (fun c => c.document_id == d) = [] := by
  rw [deleteDocument_fst, List.filter_filter]
  simp

/-- `orderedInsert` with the descending relation leaves each equal-score
class of the list unchanged up to prepending the inserted element: the
elements it passes over are strictly larger, hence in another class. -/
theorem orderedInsert_filter_eqscore {S : Type} [LinearOrder S] (s : S)
    (x : StoredChunk × S) (l : List (StoredChunk × S)) :
    (List.orderedInsert descRel x l).filter (fun p => decide (p.2 = s)) =
      ((x :: l).filter (fun p => decide (p.2 = s))) := by
  induction l with
  | nil => rfl
  | cons y t ih =>
    show (if descRel x y then x :: y :: t
          else y :: List.orderedInsert descRel x t).filter _ = _
    by_cases h : descRel x y
    · rw [if_pos h]
    · rw [if_neg h]
      have hlt : x.2 < y.2 := not_le.mp h
      by_cases hy : y.2 = s <;> by_cases hx : x.2 = s
      · exact absurd (hx.trans hy.symm) (ne_of_lt hlt)
      · simp only [List.filter_cons, ih]
        simp [hx, hy]
      · simp only [List.filter_cons, ih]
        simp [hx, hy]
      · simp only [List.filter_cons, ih]
        simp [hx, hy]

/-- Stability of the embedded `list.sort(key=..., reverse=True)`: sorting
does not reorder an equal-score class. -/
theorem sortDesc_filter_eqscore {S : Type} [LinearOrder S] (s : S)
    (l : List (StoredChunk × S)) :
    (sortDesc l).filter (fun p => decide (p.2 = s)) =
      l.filter (fun p => decide (p.2 = s)) := by
  induction l with
  | nil => rfl
  | cons x t ih =>
    show (List.orderedInsert descRel x (sortDesc t)).filter _ = _
    rw [orderedInsert_filter_eqscore]
    simp only [List.filter_cons]
    rw [ih]

/-- Claim C6: for every store, document filter, `top_k` and per-chunk
similarity score, `_memory_search` scores every candidate chunk (the output
size is `min top_k #candidates`, so exactly the candidate set is ranked and
truncated), the scores of the output are in descending order, and each
equal-score class of the output preserves the candidates' original
insertion order (it is an order-preserving selection from the candidates of
that score). -/
theorem memorySearch_ranking {S : Type} [LinearOrder S] (score : StoredChunk → S)
    (store : MemoryStore) (docId : Option String) (k : Nat) :
    (memorySearch score store docId k).length =
      min k (searchCandidates store docId).length ∧
    List.Sorted (fun a b : S => b ≤ a)
      ((memorySearch score store docId k).map (fun r => r.score)) ∧
    (∀ s : S, List.Sublist
      ((memorySearch score store docId k).filter (fun r => decide (r.score = s)))
      (((searchCandidates store docId).filter (fun c => decide (score c = s))).map
        (fun c => toSearchResult (c, score c)))) := by
  by_cases hc : searchCandidates store docId = []
  · unfold memorySearch
    rw [if_pos hc, hc]
    refine ⟨by simp, by simp, fun s => by simp⟩
  · have hout : memorySearch score store docId k =
        ((sortDesc ((searchCandidates store docId).map (fun c => (c, score c)))).take k).map
          toSearchResult := by
      unfold memorySearch
      rw [if_neg hc]
    have hlen : (sortDesc ((searchCandidates store docId).map (fun c => (c, score c)))).length =
        (searchCandidates store docId).length := by
      rw [sortDesc, (List.perm_insertionSort descRel _).length_eq, List.length_map]
    refine ⟨?_, ?_, ?_⟩
    · rw [hout, List.length_map, List.length_take, hlen]
    · rw [hout, List.map_map]
      have hsorted : List.Sorted descRel
          (sortDesc ((searchCandidates store docId).map (fun c => (c, score c)))) :=
        List.sorted_insertionSort descRel _
      have htake : List.Sorted descRel
          ((sortDesc ((searchCandidates store docId).map (fun c => (c, score c)))).take k) :=
        hsorted.sublist (List.take_sublist _ _)
      exact (List.pairwise_map).mpr htake
    · intro s
      rw [hout, List.filter_map]
      have h1 : List.Sublist
          (((sortDesc ((searchCandidates store docId).map (fun c => (c, score c)))).take k).filter
            (fun p => decide (p.2 = s)))
          ((sortDesc ((searchCandidates store docId).map (fun c => (c, score c)))).filter
            (fun p => decide (p.2 = s))) :=
        List.Sublist.filter _ (List.take_sublist _ _)
      rw [sortDesc_filter_eqscore, List.filter_map] at h1
      have h2 := List.Sublist.map toSearchResult h1
      rw [List.map_map] at h2
      exact h2

/-- Claim C8: indexing chunks for a document and then deleting that
document leaves the in-memory search (filtered to that document) empty,
for every prior store state, chunk list, score function and `top_k`. -/
theorem index_then_delete_search_empty {S : Type} [LinearOrder S]
    (score : StoredChunk → S) (hashFn : String → String) (embedFn : String → List ℚ)
    (store : MemoryStore) (d title : String) (chunks : List InputChunk)
    (category ministry : String) (k : Nat) :
    memorySearch score
      (deleteDocument
        (indexDocumentChunks hashFn embedFn store d title chunks category ministry).1 d).1
      (some d) k = [] := by
  unfold memorySearch
  rw [if_pos]
  show (deleteDocument _ d).1.filter (fun c => c.document_id == d) = []
  exact filter_eq_after_delete _ d

/-- Claim C10: `delete_document(d)` removes exactly the chunks whose
`document_id` is `d` (the survivors filtered back to `d` are empty), leaves
the chunks of every other document unchanged and in order (the per-document
filters of the new store coincide with those of the old store, and the new
store is an order-preserving selection from the old one), and returns the
number of chunks removed. -/
theorem deleteDocument_frame (store : MemoryStore) (d : String) :
    ((deleteDocument store d).1.filter (fun c => c.document_id == d) = []) ∧
    (∀ e : String, (deleteDocument store d).1.filter (fun c => c.document_id == e) =
      if e = d then [] else store.filter (fun c => c.document_id == e)) ∧
    List.Sublist (deleteDocument store d).1 store ∧
    ((deleteDocument store d).2 = (store.filter (fun c => c.document_id == d)).length) := by
  refine ⟨filter_eq_after_delete store d, ?_, ?_, ?_⟩
  · intro e
    by_cases he : e = d
    · rw [if_pos he, he]
      exact filter_eq_after_delete store d
    · rw [if_neg he, deleteDocument_fst, List.filter_filter]
      apply List.filter_congr
      intro a _
      by_cases ha : a.document_id = e
      · simp [ha, he]
      · simp [ha]
  · rw [deleteDocument_fst]
    exact List.filter_sublist store
  · rw [deleteDocument_snd]
    have h := List.length_eq_length_filter_add (l := store)
      (fun c => c.document_id == d)
    have hb : store.filter (fun a => !(a.document_id == d)) =
        store.filter (fun c => c.document_id != d) := rfl
    rw [hb] at h
    omega

/-- `np.dot` is symmetric. -/
theorem dotList_comm (a b : List ℚ) : dotList a b = dotList b a := by
  unfold dotList
  rw [List.zipWith_comm_of_comm (fun x y => x * y) (fun x y => mul_comm x y)]

/-- Claim C9, counterexample to `similarity(v, v) == 1.0`: at the nonzero
vector `v = [1]` (where the square root is exact: `sqrt 1 = 1`, so the
identity models `np.linalg.norm` faithfully at this input), the similarity
expression evaluates to `1 / (1 + 1e-8) ≠ 1`: the `1e-8` epsilon in the
denominator keeps the self-similarity strictly below one. -/
theorem cosineSim_self_ne_one :
    memCosineSim (fun q => q) [1] [1] = 100000000 / 100000001 ∧
    memCosineSim (fun q => q) [1] [1] ≠ 1 ∧
    (fun q : ℚ => q) (dotList [1] [1]) * (fun q : ℚ => q) (dotList [1] [1]) =
      dotList [1] [1] := by
  refine ⟨?_, ?_, by norm_num [dotList]⟩
  · norm_num [memCosineSim, dotList]
  · norm_num [memCosineSim, dotList]

/-- Claim C9 (amended): the similarity of `_memory_search` is symmetric for
every square-root function and all vectors (a fact that transfers to the
program, because IEEE multiplication commutes exactly); and
`similarity(v, v) == 1.0` does not hold for every non-zero vector: at the
non-zero vector `v = [1.0]` — an input on which the float computation
resolves every operation, `sqrt 1 = 1` exactly and `1.0 + 1e-8` is a
double strictly greater than `1.0` — the self-similarity differs from
`1.0`.  (No universal bound below 1 is asserted: for large-magnitude
vectors the program's float64 arithmetic absorbs the epsilon and returns
exactly 1.0.) -/
theorem cosineSim_symm_and_self_not_always_one :
    (∀ (sqrtFn : ℚ → ℚ) (a b : List ℚ),
      memCosineSim sqrtFn a b = memCosineSim sqrtFn b a) ∧
    ((∃ x ∈ [(1 : ℚ)], x ≠ 0) ∧ memCosineSim (fun q => q) [1] [1] ≠ 1) := by
  refine ⟨?_, ⟨1, by norm_num⟩, ?_⟩
  · intro sqrtFn a b
    unfold memCosineSim
    rw [dotList_comm a b, mul_comm (sqrtFn (dotList a a)) (sqrtFn (dotList b b))]
  · norm_num [memCosineSim, dotList]

/-- A successfully built evidence entry carries a quote bounded by the
`[:300]` slice. -/
theorem buildEvidenceItem_quoteLen (v : FactCheckVerdict) (ev : PyVal) (item : EvidenceOut)
    (h : buildEvidenceItem v ev = .ok item) : quoteLen item.quote ≤ 300 := by
  cases ev with
  | none => simp [buildEvidenceItem, pyGet, Bind.bind, Except.bind] at h
  | bool b => simp [buildEvidenceItem, pyGet, Bind.bind, Except.bind] at h
  | num q => simp [buildEvidenceItem, pyGet, Bind.bind, Except.bind] at h
  | str s => simp [buildEvidenceItem, pyGet, Bind.bind, Except.bind] at h
  | list l => simp [buildEvidenceItem, pyGet, Bind.bind, Except.bind] at h
  | dict entries =>
    simp only [buildEvidenceItem, pyGet, Bind.bind, Except.bind] at h
    rcases hq : dictGet entries "quote" (.str "") with _ | b | q | s | l | d <;>
        rw [hq] at h <;> simp only [pySliceVal] at h
    case str =>
      simp only [Except.ok.injEq] at h
      subst h
      simp [quoteLen, strTake]
    case list =>
      simp only [Except.ok.injEq] at h
      subst h
      simp [quoteLen]
    all_goals simp at h

/-- A well-typed evidence entry is processed without raising. -/
theorem buildEvidenceItem_ok_of_wellTyped (v : FactCheckVerdict) (ev : PyVal)
    (h : wellTypedEvidenceItem ev = true) :
    ∃ item, buildEvidenceItem v ev = .ok item := by
  cases ev with
  | none => simp [wellTypedEvidenceItem] at h
  | bool b => simp [wellTypedEvidenceItem] at h
  | num q => simp [wellTypedEvidenceItem] at h
  | str s => simp [wellTypedEvidenceItem] at h
  | list l => simp [wellTypedEvidenceItem] at h
  | dict entries =>
    simp only [wellTypedEvidenceItem] at h
    simp only [buildEvidenceItem, pyGet, Bind.bind, Except.bind]
    rcases hq : dictGet entries "quote" (.str "") with _ | b | q | s | l | d <;>
        rw [hq] at h <;> simp [sliceable] at h
    all_goals exact ⟨_, rfl⟩

/-- The evidence loop succeeds on well-typed entries. -/
theorem buildEvidence_ok_of_wellTyped (v : FactCheckVerdict) (items : List PyVal)
    (h : ∀ ev ∈ items, wellTypedEvidenceItem ev = true) :
    ∃ out, buildEvidence v items = .ok out := by
  induction items with
  | nil => exact ⟨[], rfl⟩
  | cons ev rest ih =>
    obtain ⟨item, hitem⟩ := buildEvidenceItem_ok_of_wellTyped v ev
      (h ev (List.mem_cons_self _ _))
    obtain ⟨out, hout⟩ := ih (fun x hx => h x (List.mem_cons_of_mem _ hx))
    refine ⟨item :: out, ?_⟩
    simp [buildEvidence, Bind.bind, Except.bind, hitem, hout]

/-- The evidence loop emits one entry per item. -/
theorem buildEvidence_length (v : FactCheckVerdict) (items : List PyVal)
    (out : List EvidenceOut) (h : buildEvidence v items = .ok out) :
    out.length = items.length := by
  induction items generalizing out with
  | nil =>
    simp only [buildEvidence, Except.ok.injEq] at h
    subst h; rfl
  | cons ev rest ih =>
    simp only [buildEvidence, Bind.bind, Except.bind] at h
    rcases hitem : buildEvidenceItem v ev with e | item <;> rw [hitem] at h
    · simp at h
    · rcases hrest : buildEvidence v rest with e | out2 <;> rw [hrest] at h
      · simp at h
      · simp only [Except.ok.injEq] at h
        subst h
        simp [ih out2 hrest]

/-- Every quote the evidence loop emits is bounded by the slice. -/
theorem buildEvidence_quotes (v : FactCheckVerdict) (items : List PyVal)
    (out : List EvidenceOut) (h : buildEvidence v items = .ok out) :
    ∀ e ∈ out, quoteLen e.quote ≤ 300 := by
  induction items generalizing out with
  | nil =>
    simp only [buildEvidence, Except.ok.injEq] at h
    subst h; simp
  | cons ev rest ih =>
    simp only [buildEvidence, Bind.bind, Except.bind] at h
    rcases hitem : buildEvidenceItem v ev with e | item <;> rw [hitem] at h
    · simp at h
    · rcases hrest : buildEvidence v rest with e | out2 <;> rw [hrest] at h
      · simp at h
      · simp only [Except.ok.injEq] at h
        subst h
        intro e he
        rcases List.mem_cons.mp he with rfl | he2
        · exact buildEvidenceItem_quoteLen v ev e hitem
        · exact ih out2 hrest e he2

/-- On a well-typed response the post-processing returns a result dict
(with the request's language and provider) instead of raising. -/
theorem processLLMResult_ok_of_wellTyped (j : PyVal) (claim language provider : String)
    (tc : Bool) (te : Except PyErr String) (h : wellTypedResp j = true) :
    ∃ r, processLLMResult j claim language provider tc te = .ok r ∧
      r.language = language ∧ r.llm_provider = provider := by
  cases j with
  | none => simp [wellTypedResp] at h
  | bool b => simp [wellTypedResp] at h
  | num q => simp [wellTypedResp] at h
  | str s => simp [wellTypedResp] at h
  | list l => simp [wellTypedResp] at h
  | dict entries =>
    simp only [wellTypedResp, Bool.and_eq_true] at h
    obtain ⟨hv, he⟩ := h
    simp only [processLLMResult, pyGet, Bind.bind, Except.bind]
    rcases hverd : dictGet entries "verdict" (.str "unverifiable") with _ | b | q | s | l | d <;>
        rw [hverd] at hv <;> simp at hv
    simp only [pyLower]
    rcases hev : dictGet entries "evidence" (.list []) with _ | b | q | s2 | l | d <;>
        rw [hev] at he <;> simp at he
    case str =>
      subst he
      exact ⟨_, rfl, rfl, rfl⟩
    case list =>
      obtain ⟨out, hout⟩ := buildEvidence_ok_of_wellTyped
        (verdictMap ⟨s.data.map Char.toLower⟩) (l.take 5)
        (fun ev hmem => he ev hmem)
      simp only [pySliceVal, pyIterItems]
      rw [hout]
      exact ⟨_, rfl, rfl, rfl⟩

/-- Whenever the post-processing returns a result, its evidence list has at
most 5 entries (the `[:5]` slice) and every quote is bounded by the
`[:300]` slice. -/
theorem processLLMResult_evidence_bound (j : PyVal) (claim language provider : String)
    (tc : Bool) (te : Except PyErr String) (r : CheckClaimResult)
    (h : processLLMResult j claim language provider tc te = .ok r) :
    r.evidence.length ≤ 5 ∧ ∀ e ∈ r.evidence, quoteLen e.quote ≤ 300 := by
  cases j with
  | none => simp [processLLMResult, pyGet, Bind.bind, Except.bind] at h
  | bool b => simp [processLLMResult, pyGet, Bind.bind, Except.bind] at h
  | num q => simp [processLLMResult, pyGet, Bind.bind, Except.bind] at h
  | str s => simp [processLLMResult, pyGet, Bind.bind, Except.bind] at h
  | list l => simp [processLLMResult, pyGet, Bind.bind, Except.bind] at h
  | dict entries =>
    simp only [processLLMResult, pyGet, Bind.bind, Except.bind] at h
    rcases hverd : dictGet entries "verdict" (.str "unverifiable") with _ | b | q | s | l | d <;>
        rw [hverd] at h <;> simp only [pyLower] at h
    case none => simp at h
    case bool => simp at h
    case num => simp at h
    case list => simp at h
    case dict => simp at h
    rcases hev : dictGet entries "evidence" (.list []) with _ | b | q | s2 | l | d <;>
        rw [hev] at h <;> simp only [pySliceVal] at h
    case none => simp at h
    case bool => simp at h
    case num => simp at h
    case dict => simp at h
    case str =>
      rcases hbe : buildEvidence (verdictMap ⟨s.data.map Char.toLower⟩)
          (pyIterItems (.str (strTake s2 5))) with err | out <;> rw [hbe] at h
      · simp at h
      · simp only [Except.ok.injEq] at h
        subst h
        refine ⟨?_, buildEvidence_quotes _ _ _ hbe⟩
        have hlen := buildEvidence_length _ _ _ hbe
        simp only [hlen, pyIterItems, strTake]
        simp [List.length_take_le]
    case list =>
      rcases hbe : buildEvidence (verdictMap ⟨s.data.map Char.toLower⟩)
          (pyIterItems (.list (l.take 5))) with err | out <;> rw [hbe] at h
      · simp at h
      · simp only [Except.ok.injEq] at h
        subst h
        refine ⟨?_, buildEvidence_quotes _ _ _ hbe⟩
        have hlen := buildEvidence_length _ _ _ hbe
        simp only [hlen, pyIterItems]
        simp [List.length_take_le]

/-- When the explanation translation raised (and was swallowed), the
returned explanation is exactly the model's untranslated one. -/
theorem processLLMResult_explanation (j : PyVal) (claim language provider : String)
    (tc : Bool) (e : PyErr) (r : CheckClaimResult)
    (h : processLLMResult j claim language provider tc (.error e) = .ok r) :
    pyGet j "explanation" (.str "Unable to provide detailed explanation.") =
      .ok r.explanation := by
  cases j with
  | none => simp [processLLMResult, pyGet, Bind.bind, Except.bind] at h
  | bool b => simp [processLLMResult, pyGet, Bind.bind, Except.bind] at h
  | num q => simp [processLLMResult, pyGet, Bind.bind, Except.bind] at h
  | str s => simp [processLLMResult, pyGet, Bind.bind, Except.bind] at h
  | list l => simp [processLLMResult, pyGet, Bind.bind, Except.bind] at h
  | dict entries =>
    simp only [processLLMResult, pyGet, Bind.bind, Except.bind] at h
    rcases hverd : dictGet entries "verdict" (.str "unverifiable") with _ | b | q | s | l | d <;>
        rw [hverd] at h <;> simp only [pyLower] at h
    case none => simp at h
    case bool => simp at h
    case num => simp at h
    case list => simp at h
    case dict => simp at h
    rcases hev : dictGet entries "evidence" (.list []) with _ | b | q | s2 | l | d <;>
        rw [hev] at h <;> simp only [pySliceVal] at h
    case none => simp at h
    case bool => simp at h
    case num => simp at h
    case dict => simp at h
    case str =>
      rcases hbe : buildEvidence (verdictMap ⟨s.data.map Char.toLower⟩)
          (pyIterItems (.str (strTake s2 5))) with err | out <;> rw [hbe] at h
      · simp at h
      · simp only [Except.ok.injEq] at h
        subst h
        simp only [pyGet]
        cases tc <;> simp
    case list =>
      rcases hbe : buildEvidence (verdictMap ⟨s.data.map Char.toLower⟩)
          (pyIterItems (.list (l.take 5))) with err | out <;> rw [hbe] at h
      · simp at h
      · simp only [Except.ok.injEq] at h
        subst h
        simp only [pyGet]
        cases tc <;> simp

/-- Claim C1, counterexample: a provider response that is a JSON object
with a non-string `verdict` (here `{"verdict": 5}`) makes
`check_claim` raise `AttributeError` at `llm_result.get("verdict",
"unverifiable").lower()` — the call sits outside the `try` that guards the
provider call, so the exception propagates to the caller instead of a
result object. -/
theorem checkClaim_raises_on_nonstring_verdict :
    checkClaim (mkTestEnv (.ok (.dict [("verdict", .num 5)]))) "azure_openai"
      "This claim is long enough to be checked." "en" =
      .error (.attributeError "object has no attribute lower") :=
  rfl

/-- Claim C1 (amended): for every input claim and language, and every
exception raised by the provider, the document store, or the translator
during the call, `check_claim` returns a well-formed result object — and
when the provider returns a parsed response, the same holds provided the
response is well-typed (a JSON object whose `verdict` is a string and
whose `evidence` entries are objects with string-or-list quotes); a
type-confused response instead raises `AttributeError`/`TypeError` to the
caller (see the counterexample). -/
theorem checkClaim_total_on_welltyped_responses (env : CheckClaimEnv)
    (provider claim language : String)
    (hllm : ∀ sc, (∃ e, env.llmOutcome sc = .error e) ∨
      (∃ j, env.llmOutcome sc = .ok j ∧ wellTypedResp j = true)) :
    ∃ r, checkClaim env provider claim language = .ok r ∧
      r.language = language ∧ r.llm_provider = provider := by
  unfold checkClaim
  split
  · exact ⟨_, rfl, rfl, rfl⟩
  · simp only []
    split
    · exact ⟨_, rfl, rfl, rfl⟩
    · rcases hllm (computeSearchClaim (sanitizeInput claim) language
          env.translatorConfigured env.detectOutcome env.translateToEnOutcome) with
        ⟨e, he⟩ | ⟨j, hj, hwt⟩
      · rw [he]
        exact ⟨_, rfl, rfl, rfl⟩
      · rw [hj]
        exact processLLMResult_ok_of_wellTyped j (sanitizeInput claim) language provider
          env.translatorConfigured env.translateExplOutcome hwt

/-- Claim C1, witness: the amended theorem applied to a concrete well-typed
provider response. -/
theorem checkClaim_total_witness :
    ∃ r, checkClaim (mkTestEnv (.ok (.dict [("verdict", .str "true"),
          ("confidence", .num (9 / 10)),
          ("explanation", .str "Supported by documents."),
          ("evidence", .list [.dict [("quote", .str "a quote"),
            ("supports_claim", .bool true), ("source", .str "Doc One")]])])))
        "azure_openai" "This witness claim is long enough." "en" = .ok r ∧
      r.language = "en" ∧ r.llm_provider = "azure_openai" :=
  checkClaim_total_on_welltyped_responses _ "azure_openai"
    "This witness claim is long enough." "en"
    (fun _ => Or.inr ⟨_, rfl, by decide⟩)

set_option maxRecDepth 8000 in
/-- Claim C5, counterexample to the ellipsis clause: a provider response
whose quote has 301 characters yields an evidence entry carrying exactly
the bare 300-character prefix — no ellipsis marker is appended (the code
stores `ev.get("quote", "")[:300]`). -/
theorem evidence_quote_no_ellipsis :
    resultQuotes (checkClaim (mkTestEnv (.ok (.dict [("verdict", .str "true"),
        ("evidence", .list [.dict [("quote", .str aaa301)]])])))
      "azure_openai" "This claim is long enough for quote checks." "en") =
      [.str aaa300] ∧
    aaa301.length = 301 ∧ aaa300.length = 300 ∧
    List.isSuffixOf "...".data aaa300.data = false ∧
    aaa300 ≠ strTake aaa301 300 ++ "..." := by
  refine ⟨rfl, by decide, by decide, by decide, by decide⟩

/-- Claim C5 (amended): every fact-check result `check_claim` returns
carries at most 5 evidence entries, and every quote is truncated to at most
300 characters by the bare `[:300]` slice (no ellipsis marker is appended —
see the counterexample). -/
theorem evidence_bounded (env : CheckClaimEnv) (provider claim language : String)
    (r : CheckClaimResult) (h : checkClaim env provider claim language = .ok r) :
    r.evidence.length ≤ 5 ∧ ∀ e ∈ r.evidence, quoteLen e.quote ≤ 300 := by
  unfold checkClaim at h
  split at h
  · simp only [Except.ok.injEq] at h
    subst h
    simp [mkEarlyResult]
  · simp only [] at h
    split at h
    · simp only [Except.ok.injEq] at h
      subst h
      simp [mkEarlyResult]
    · rcases hllm : env.llmOutcome (computeSearchClaim (sanitizeInput claim) language
          env.translatorConfigured env.detectOutcome env.translateToEnOutcome) with e | j <;>
          rw [hllm] at h
      · simp only [Except.ok.injEq] at h
        subst h
        simp [mkEarlyResult]
      · exact processLLMResult_evidence_bound j (sanitizeInput claim) language provider
          env.translatorConfigured env.translateExplOutcome r h

/-- Claim C5, witness: the amended bound evaluated on a concrete run. -/
theorem evidence_bounded_witness :
    checkClaim (mkTestEnv (.ok (.dict [("verdict", .str "true"),
        ("evidence", .list [.dict [("quote", .str "short quote")]])])))
        "azure_openai" "Another witness claim long enough." "en" = .ok witnessResult5 ∧
      witnessResult5.evidence.length ≤ 5 ∧
      ∀ e ∈ witnessResult5.evidence, quoteLen e.quote ≤ 300 := by
  have h : checkClaim (mkTestEnv (.ok (.dict [("verdict", .str "true"),
      ("evidence", .list [.dict [("quote", .str "short quote")]])])))
      "azure_openai" "Another witness claim long enough." "en" = .ok witnessResult5 := rfl
  exact ⟨h, evidence_bounded _ _ _ _ _ h⟩

/-- Claim C2, counterexample: with no provider configured, invoking the
fact-check capability through the service raises
`ValueError("No LLM provider configured")` from `get_llm_client()` inside
the `FactCheckerService` constructor — it does not return an UNVERIFIABLE
zero-confidence result. -/
theorem service_factcheck_raises_when_unconfigured :
    getAvailableLLM unconfiguredSettings = "none" ∧
    serviceCheckClaim unconfiguredSettings (mkTestEnv (.ok .none))
        "A claim that is quite long enough." "en" =
      .error (.valueError "No LLM provider configured") :=
  ⟨rfl, rfl⟩

/-- Claim C2 (amended): at the provider level the degraded default does
hold — with neither Azure OpenAI nor Gemini configured,
`AzureOpenAIClient.fact_check` returns `verdict = "unverifiable"`,
`confidence = 0.0` without raising (Azure's `_generate` raises, the
fallback `GeminiClient` constructor raises, both are caught) — but the
service-level path never reaches it: `get_llm_client()` raises `ValueError`
first (see the counterexample). -/
theorem azure_factCheck_unconfigured_default (s : Settings)
    (openaiAvailable clientCreateOk : Bool)
    (azureGen geminiGen : String → Except PyErr String)
    (parseJson : String → Option PyVal) (claim : String)
    (chunks : List EvidenceItem)
    (hazure : (optTruthy s.azure_openai_endpoint && optTruthy s.azure_openai_key) = false)
    (hgem : s.gemini_api_key = "") :
    azureFactCheck (azureClientConfigured openaiAvailable clientCreateOk s) azureGen
        parseJson (getGeminiClientOutcome s) geminiGen claim chunks =
      .ok (azureBothFailedDefault (.valueError "Azure OpenAI not configured")) ∧
    pyGet (azureBothFailedDefault (.valueError "Azure OpenAI not configured"))
      "verdict" .none = .ok (.str "unverifiable") ∧
    pyGet (azureBothFailedDefault (.valueError "Azure OpenAI not configured"))
      "confidence" .none = .ok (.num 0) := by
  have hconf : azureClientConfigured openaiAvailable clientCreateOk s = false := by
    unfold azureClientConfigured
    rw [hazure]
    simp
  refine ⟨?_, rfl, rfl⟩
  rw [hconf]
  unfold azureFactCheck azureGenerate getGeminiClientOutcome
  rw [if_pos hgem]
  simp

/-- Claim C2, witness: the amended provider-level default evaluated with
everything unconfigured. -/
theorem azure_factCheck_unconfigured_default_witness :
    azureFactCheck (azureClientConfigured true true unconfiguredSettings)
        (fun _ => .ok "unused") (fun _ => Option.none)
        (getGeminiClientOutcome unconfiguredSettings) (fun _ => .ok "unused")
        "Some claim." [] =
      .ok (azureBothFailedDefault (.valueError "Azure OpenAI not configured")) :=
  (azure_factCheck_unconfigured_default unconfiguredSettings true true
    (fun _ => .ok "unused") (fun _ => .ok "unused") (fun _ => Option.none)
    "Some claim." [] (by decide) rfl).1

/-- Claim C3, counterexample: on a Gemini response with no parseable JSON
object (here the plain text `"hello"`), `fact_check` returns the fixed
default with confidence `0.0` and a canned message — not the claimed
confidence `0.3` with a truncated prefix of the raw output (that behaviour
belongs to the Azure client only). -/
theorem gemini_parse_failure_counterexample :
    geminiFactCheck (fun _ => .ok "hello") (fun _ => Option.none) "claim x" [] =
      .ok geminiFactCheckDefault ∧
    geminiFactCheckDefault =
      PyVal.dict [("verdict", .str "unverifiable"), ("confidence", .num 0),
        ("explanation", .str "Unable to verify this claim with available documents."),
        ("evidence", .list [])] ∧
    (0 : ℚ) ≠ 3 / 10 ∧
    "Unable to verify this claim with available documents." ≠ strTake "hello" 500 :=
  ⟨rfl, rfl, by norm_num, by decide⟩

/-- Claim C3 (amended): when structured parsing of the raw model output
fails, the Azure provider returns the default
`{verdict: "unverifiable", confidence: 0.3, explanation: raw[:500],
evidence: []}`; the Gemini provider instead returns its fixed default with
confidence `0.0` and a canned explanation that is not a prefix of the raw
output (see the counterexample). -/
theorem parse_failure_defaults :
    (∀ (azureGen : String → Except PyErr String) (parseJson : String → Option PyVal)
       (geminiInit : Except PyErr Unit) (geminiGen : String → Except PyErr String)
       (claim : String) (chunks : List EvidenceItem) (raw : String),
       azureGen (azureFactCheckPrompt claim chunks) = .ok raw →
       parseJson raw = Option.none →
       azureFactCheck true azureGen parseJson geminiInit geminiGen claim chunks =
         .ok (azureParseFailureDefault raw)) ∧
    (∀ (geminiGen : String → Except PyErr String) (parseJson : String → Option PyVal)
       (claim : String) (chunks : List EvidenceItem) (raw : String),
       geminiGen (geminiFactCheckPrompt claim chunks) = .ok raw →
       (∀ span, extractJsonSpan raw.data = some span → parseJson ⟨span⟩ = Option.none) →
       geminiFactCheck geminiGen parseJson claim chunks = .ok geminiFactCheckDefault) := by
  constructor
  · intro azureGen parseJson geminiInit geminiGen claim chunks raw hgen hparse
    unfold azureFactCheck azureGenerate
    simp [hgen, hparse]
  · intro geminiGen parseJson claim chunks raw hgen hspan
    unfold geminiFactCheck
    simp only [hgen, Bind.bind, Except.bind]
    rcases hsp : extractJsonSpan raw.data with _ | span
    · rfl
    · simp only []
      rw [hspan span hsp]

/-- Claim C3, witness: both parse-failure defaults evaluated on concrete
raw outputs. -/
theorem parse_failure_defaults_witness :
    azureFactCheck true (fun _ => .ok "not json") (fun _ => Option.none) (.ok ())
        (fun _ => .ok "unused") "c" [] = .ok (azureParseFailureDefault "not json") ∧
    geminiFactCheck (fun _ => .ok "plain text") (fun _ => Option.none) "c" [] =
      .ok geminiFactCheckDefault :=
  ⟨parse_failure_defaults.1 (fun _ => .ok "not json") (fun _ => Option.none) (.ok ())
      (fun _ => .ok "unused") "c" [] "not json" rfl rfl,
   parse_failure_defaults.2 (fun _ => .ok "plain text") (fun _ => Option.none) "c" []
      "plain text" rfl (fun _ _ => rfl)⟩

/-- Claim C4, counterexample: `summarize_document` does not guard its
translation calls — when the translation of the summary raises, the
exception propagates out of the core operation instead of the original
text being returned. -/
theorem summarize_translation_failure_propagates :
    summarizeDocument (.ok "A summary.") (.ok ["point one"]) true
        (.error (.valueError "Translation error: boom")) (.ok ["point one"]) "hi" =
      .error (.valueError "Translation error: boom") :=
  rfl

/-- Claim C4 (amended): question answering and fact-checking swallow
translation failures and return the original untranslated text — `ask`
keeps the untranslated answer, `check_claim` keeps the original claim for
searching and the untranslated explanation in its result — but
summarization (and timeline generation) do not: their translation failures
propagate to the caller (see the counterexample). -/
theorem translation_failure_fallback :
    (∀ (provider : String) (tc : Bool) (storeGet : Except PyErr (Option StoreDoc))
       (llmAnswer : String → List String → String → Except PyErr PyVal)
       (e : PyErr) (question d language : String) (ctx : CtxDoc)
       (entries : List (String × PyVal)),
       question ≠ "" → pyStrip question ≠ "" →
       getDocumentContext storeGet d = some ctx →
       llmAnswer (ragSanitizeInput question) [buildContextText ctx] ctx.title =
         .ok (.dict entries) →
       ragAsk provider tc storeGet llmAnswer (.error e) question (some d) language =
         .ok { answer := dictGet entries "answer" (.str "I couldn't generate an answer."),
               citations := [{ text := strTake ctx.summary 200 ++ "...",
                               page := .none,
                               sectionName := "Document Summary",
                               document_id := some d,
                               relevance_score := 9 / 10 }],
               confidence := dictGet entries "confidence" (.num (7 / 10)),
               language := language, llm_provider := provider }) ∧
    (∀ (claim language : String) (tc : Bool) (detect : Except PyErr (String × ℚ))
       (e : PyErr), computeSearchClaim claim language tc detect (.error e) = claim) ∧
    (∀ (j : PyVal) (claim language provider : String) (tc : Bool) (e : PyErr)
       (r : CheckClaimResult),
       processLLMResult j claim language provider tc (.error e) = .ok r →
       pyGet j "explanation" (.str "Unable to provide detailed explanation.") =
         .ok r.explanation) := by
  refine ⟨?_, ?_, ?_⟩
  · intro provider tc storeGet llmAnswer e question d language ctx entries
      hq1 hq2 hctx hans
    unfold ragAsk
    simp only [hq1, hq2]
    rw [if_neg (by simp [hq1, hq2])]
    simp only [hctx, hans, pyGet, Bind.bind, Except.bind]
    simp
  · intro claim language tc detect e
    unfold computeSearchClaim
    split
    · rcases detect with e' | dl
      · rfl
      · simp
    · rfl
  · intro j claim language provider tc e r h
    exact processLLMResult_explanation j claim language provider tc e r h

/-- Claim C4, witness: the three fallback statements evaluated on concrete
inputs with a failing translator. -/
theorem translation_failure_fallback_witness :
    ragAsk "gemini" true (.ok (some ⟨"doc-1", "Title", "A doc summary.", ["k"]⟩))
        (fun _ _ _ => .ok (.dict [("answer", .str "The answer."),
          ("confidence", .num (8 / 10))]))
        (.error (.valueError "boom")) "What does it say?" (some "doc-1") "hi" =
      .ok { answer := dictGet [("answer", PyVal.str "The answer."),
                               ("confidence", PyVal.num (8 / 10))] "answer"
                              (.str "I couldn't generate an answer."),
            citations := [{ text := strTake "A doc summary." 200 ++ "...",
                            page := .none,
                            sectionName := "Document Summary",
                            document_id := some "doc-1",
                            relevance_score := 9 / 10 }],
            confidence := dictGet [("answer", PyVal.str "The answer."),
                                   ("confidence", PyVal.num (8 / 10))] "confidence"
                                  (.num (7 / 10)),
            language := "hi", llm_provider := "gemini" } ∧
    computeSearchClaim "c" "hi" true (.ok ("hi", 9 / 10))
        (.error (.valueError "boom")) = "c" ∧
    pyGet (.dict [("verdict", PyVal.str "false"), ("explanation", PyVal.str "Because.")])
        "explanation" (.str "Unable to provide detailed explanation.") =
      .ok (CheckClaimResult.explanation
        { claim := "c", verdict := .FALSE, confidence := .num (1 / 2),
          explanation := .str "Because.", evidence := [], language := "hi",
          llm_provider := "gemini" }) :=
  ⟨translation_failure_fallback.1 "gemini" true
      (.ok (some ⟨"doc-1", "Title", "A doc summary.", ["k"]⟩))
      (fun _ _ _ => .ok (.dict [("answer", .str "The answer."),
        ("confidence", .num (8 / 10))]))
      (.valueError "boom") "What does it say?" "doc-1" "hi"
      ⟨"Title", "A doc summary.", ["k"]⟩
      [("answer", PyVal.str "The answer."), ("confidence", PyVal.num (8 / 10))]
      (by decide) (by decide) rfl rfl,
   translation_failure_fallback.2.1 "c" "hi" true (.ok ("hi", 9 / 10))
      (.valueError "boom"),
   translation_failure_fallback.2.2
      (.dict [("verdict", PyVal.str "false"), ("explanation", PyVal.str "Because.")])
      "c" "hi" "gemini" true (.valueError "boom")
      { claim := "c", verdict := .FALSE, confidence := .num (1 / 2),
        explanation := .str "Because.", evidence := [], language := "hi",
        llm_provider := "gemini" } rfl⟩
